import Mathlib

/-!
Shallow embedding of
`hummingbot/connector/exchange/bitzlato/bitzlato_api_order_book_data_source.py`
(class `BitzlatoAPIOrderBookDataSource`).

Modelling conventions:
- Python `Decimal` values are embedded as exact rationals.
- Network I/O is scripted: each embedded operation takes the outcome of its
  I/O (response status, body, stream events) as an explicit argument and
  returns the trace of observable actions it performs.
- Fallible code returns `Except` or `Option`; an exception raised by a Python
  call is modelled by an error value of the corresponding scripted outcome.
- External collaborators (venue pair-name translation, JSON decoding into
  order-book messages) are parameters of the embedded functions.
-/

namespace Bitzlato

/-- Source constant `DIFF_STREAM_URL` (the streaming base URL). -/
def DIFF_STREAM_URL : String := "wss://www.bitzlato.dev/api/v2/ranger/public"

/-- Source class constant `MESSAGE_TIMEOUT` (receive timeout, seconds). -/
def MESSAGE_TIMEOUT : ℚ := 30

/-- Source class constant `PING_TIMEOUT` (pong-wait timeout, seconds). -/
def PING_TIMEOUT : ℚ := 10

/-- A venue ticker record as consumed by `get_mid_price`: the `buy` and
`sell` fields parsed as exact rationals, `none` when the field is absent
(the source falls back to the string literal for zero via
`record.get(..., ...)`). -/
structure TickerRecord where
  buy : Option ℚ
  sell : Option ℚ
deriving DecidableEq

/-- Embeds `get_mid_price`: computes
`(Decimal(record.get(buy, 0)) + Decimal(record.get(sell, 0))) / Decimal(2)`
and returns it unless it is falsy (zero), in which case it returns `None`. -/
def get_mid_price (record : TickerRecord) : Option ℚ :=
  let result : ℚ := (record.buy.getD 0 + record.sell.getD 0) / 2
  if result = 0 then none else some result

/-- Scripted outcome of the HTTP GET performed by `fetch_trading_pairs`:
either the request (or its JSON decoding) raised, or it produced a status
code together with the extracted list of venue symbol ids
(`none` when extracting the symbol ids from the body raises). -/
inductive ExchangeInfoOutcome where
  | raised
  | response (status : ℕ) (symbols : Option (List String))
deriving DecidableEq

/-- Embeds `fetch_trading_pairs`: on any raised exception or non-200 status
it returns the empty list; on a 200 response it keeps, in order, each venue
symbol that the external translator `convert_from_exchange_trading_pair`
maps to a local pair name, skipping symbols translated to `None`. -/
def fetch_trading_pairs (convert_from_exchange_trading_pair : String → Option String) :
    ExchangeInfoOutcome → List String
  | .raised => []
  | .response status symbols =>
    if status = 200 then
      match symbols with
      | none => []
      | some raw_trading_pairs => raw_trading_pairs.filterMap convert_from_exchange_trading_pair
    else []

/-- A structured depth snapshot body as decoded from the venue JSON: bid and
ask price levels, an update sequence value, and the (optional) trading-pair
field of the payload — venue depth responses carry no pair identity, so a
decoded venue body has `trading_pair = none`. -/
structure SnapData where
  bids : List (ℚ × ℚ)
  asks : List (ℚ × ℚ)
  seq : ℕ
  trading_pair : Option String
deriving DecidableEq

/-- Scripted outcome of the depth-snapshot HTTP GET: the status code and the
result of decoding the body (`Except.error` when `response.json()` raises). -/
structure HttpSnapshotResponse where
  status : ℕ
  body : Except String SnapData

/-- Embeds `get_snapshot`: on a non-200 status it raises
`IOError(f"Error fetching Bitzlato market snapshot for ... HTTP status is ...")`;
otherwise it returns the decoded body unchanged. -/
def get_snapshot (trading_pair : String) (limit : ℕ) (resp : HttpSnapshotResponse) :
    Except String SnapData :=
  if resp.status ≠ 200 then
    Except.error ("Error fetching Bitzlato market snapshot for " ++ trading_pair ++
      ". HTTP status is " ++ toString resp.status ++ ".")
  else
    resp.body

/-- Modelled from the spec: `BitzlatoOrderBook.snapshot_message_from_exchange`
lives in `bitzlato_order_book.py`, which is not under `src/`. Per the spec, a
snapshot event preserves every price level and the update sequence indicator
of the structured snapshot, carries the receipt timestamp, and carries the
trading pair injected through the `metadata` argument. -/
structure OrderBookMessage where
  trading_pair : String
  bids : List (ℚ × ℚ)
  asks : List (ℚ × ℚ)
  update_id : ℕ
  timestamp : ℚ
deriving DecidableEq

/-- Modelled from the spec: the snapshot-message constructor; the trading
pair comes from the `metadata` dict passed by the caller. -/
def snapshot_message_from_exchange (msg : SnapData) (timestamp : ℚ)
    (metadata_trading_pair : String) : OrderBookMessage :=
  { trading_pair := metadata_trading_pair
    bids := msg.bids
    asks := msg.asks
    update_id := msg.seq
    timestamp := timestamp }

/-- Modelled from the spec: the external order-book store
(`hummingbot.core.data_type.order_book`, not under `src/`), which applies
bids/asks and tracks an update-id counter. -/
structure OrderBook where
  bids : List (ℚ × ℚ)
  asks : List (ℚ × ℚ)
  lastUpdateId : ℕ
deriving DecidableEq

/-- Modelled from the spec: a freshly created (empty) order book, as produced
by the `_order_book_create_function` set in the constructor. -/
def OrderBook.new : OrderBook := { bids := [], asks := [], lastUpdateId := 0 }

/-- Modelled from the spec: `apply_snapshot` replaces the stored price levels
and records the update id. -/
def OrderBook.apply_snapshot (ob : OrderBook) (bids asks : List (ℚ × ℚ))
    (update_id : ℕ) : OrderBook :=
  { bids := bids, asks := asks, lastUpdateId := update_id }

/-- Embeds `get_new_order_book`: fetch a depth snapshot with limit 1000, wrap
it as a snapshot message with the requested pair injected via metadata, apply
it to a freshly created order book, and return that book. A raised
`get_snapshot` error propagates unchanged. -/
def get_new_order_book (trading_pair : String) (resp : HttpSnapshotResponse)
    (snapshot_timestamp : ℚ) : Except String OrderBook := do
  let snapshot ← get_snapshot trading_pair 1000 resp
  let snapshot_msg := snapshot_message_from_exchange snapshot snapshot_timestamp trading_pair
  pure (OrderBook.new.apply_snapshot snapshot_msg.bids snapshot_msg.asks snapshot_msg.update_id)

/-- Embeds the Python string method `lower` (character-wise lower-casing),
defined structurally on the character list so it evaluates by kernel
reduction. -/
def lowerStr (s : String) : String := String.mk (s.data.map Char.toLower)

/-- Embeds the `ws_path` expression of `listen_for_trades`: venue-formatted
lower-cased pairs each suffixed with `.trade`, joined with the token `/?=`.
The venue formatter `convert_to_exchange_trading_pair` is an external
collaborator, passed as `conv`. -/
def tradeWsPath (conv : String → String) (trading_pairs : List String) : String :=
  String.intercalate "/?=" (trading_pairs.map (fun tp => lowerStr (conv tp) ++ ".trade"))

/-- Embeds the `ws_path` expression of `listen_for_order_book_diffs`:
venue-formatted lower-cased pairs each suffixed with the literal
`.ob-inc ` (with its trailing space, exactly as in the source f-string),
joined with the token `/?stream=`. -/
def diffWsPath (conv : String → String) (trading_pairs : List String) : String :=
  String.intercalate "/?stream=" (trading_pairs.map (fun tp => lowerStr (conv tp) ++ ".ob-inc "))

/-- Embeds the `stream_url` of `listen_for_trades`. -/
def tradeStreamUrl (conv : String → String) (trading_pairs : List String) : String :=
  DIFF_STREAM_URL ++ "/" ++ tradeWsPath conv trading_pairs

/-- Embeds the `stream_url` of `listen_for_order_book_diffs`. -/
def diffStreamUrl (conv : String → String) (trading_pairs : List String) : String :=
  DIFF_STREAM_URL ++ "/" ++ diffWsPath conv trading_pairs

/-- Scripted outcome of one `ws.recv()` attempt inside `_inner_messages`:
either a raw message arrives within the receive timeout, or the receive
times out (with the pong of the subsequent ping arriving within the pong
timeout or not), or the connection reports closed, or the task is
cancelled at this suspension point. -/
inductive RecvEvent where
  | message (raw : String)
  | recvTimeout (pongWithinTimeout : Bool)
  | connClosed
  | cancelled
deriving DecidableEq

/-- Observable action performed by the `_inner_messages` read loop. -/
inductive StreamAction where
  | recvWait (timeout : ℚ)
  | yieldMsg (raw : String)
  | ping
  | awaitPong (timeout : ℚ)
  | logWarning
  | close
deriving DecidableEq

/-- How a `_inner_messages` generator run ends. `blocked` is the model
artifact for a script that runs out while the loop is still awaiting. -/
inductive SessionEnd where
  | pingTimeout
  | closedByPeer
  | cancelled
  | blocked
deriving DecidableEq

/-- Embeds `_inner_messages`: awaits each message with `MESSAGE_TIMEOUT` and
yields it; on a receive timeout it sends one ping and awaits the pong with
`PING_TIMEOUT`, continuing on success; if the pong also times out, the
re-raised `TimeoutError` is caught by the outer handler, which logs a
warning and returns; a `ConnectionClosed` is caught and the loop returns
silently; a cancellation propagates. The `finally` block closes the
connection on every exit path. -/
def inner_messages : List RecvEvent → List StreamAction × SessionEnd
  | [] => ([], SessionEnd.blocked)
  | RecvEvent.message raw :: rest =>
    (StreamAction.recvWait MESSAGE_TIMEOUT :: StreamAction.yieldMsg raw ::
      (inner_messages rest).1, (inner_messages rest).2)
  | RecvEvent.recvTimeout true :: rest =>
    (StreamAction.recvWait MESSAGE_TIMEOUT :: StreamAction.ping ::
      StreamAction.awaitPong PING_TIMEOUT :: (inner_messages rest).1,
     (inner_messages rest).2)
  | RecvEvent.recvTimeout false :: _ =>
    ([StreamAction.recvWait MESSAGE_TIMEOUT, StreamAction.ping,
      StreamAction.awaitPong PING_TIMEOUT, StreamAction.logWarning, StreamAction.close],
     SessionEnd.pingTimeout)
  | RecvEvent.connClosed :: _ =>
    ([StreamAction.recvWait MESSAGE_TIMEOUT, StreamAction.close], SessionEnd.closedByPeer)
  | RecvEvent.cancelled :: _ =>
    ([StreamAction.recvWait MESSAGE_TIMEOUT, StreamAction.close], SessionEnd.cancelled)

/-- Extracts the yielded raw message from a stream action. -/
def yieldOf : StreamAction → Option String
  | StreamAction.yieldMsg raw => some raw
  | _ => none

/-- The raw messages a `_inner_messages` run yields, in order. -/
def sessionYields (events : List RecvEvent) : List String :=
  (inner_messages events).1.filterMap yieldOf

/-- Script for one supervisor iteration: whether `websockets.connect`
succeeds, and the receive events of the resulting session. -/
structure SessionScript where
  connectOk : Bool
  events : List RecvEvent
deriving DecidableEq

/-- Observable action performed by a supervisor loop
(`listen_for_trades` / `listen_for_order_book_diffs`). -/
inductive SupAction where
  | connect (url : String)
  | enqueue (msg : String)
  | logError
  | sleepSec (secs : ℚ)
deriving DecidableEq

/-- How a supervisor run ends: cancellation propagated to the caller, or the
model script ran out (the real loop would keep running). -/
inductive SupEnd where
  | cancelled
  | outOfScript
deriving DecidableEq

/-- The body of the `async for` in the supervisor loops: decode each yielded
raw message and enqueue the result; a decode exception aborts the iteration
(`false` component) with no further messages processed. The decoder
parameter stands for `ujson.loads` composed with the external
`BitzlatoOrderBook` message constructor, `none` meaning it raises. -/
def processYields (decode : String → Option String) : List String → List SupAction × Bool
  | [] => ([], true)
  | raw :: rest =>
    match decode raw with
    | none => ([], false)
    | some m =>
      (SupAction.enqueue m :: (processYields decode rest).1, (processYields decode rest).2)

/-- Embeds the shared supervisor loop shape of `listen_for_trades` and
`listen_for_order_book_diffs`: forever — connect, iterate the session
decoding and enqueueing; `CancelledError` is re-raised; any other exception
(connect failure, decode failure) is caught, logged at error level, and
followed by a 30 second sleep before the next iteration; a session that ends
without an exception (ping timeout or peer close) is followed immediately by
the next iteration. -/
def superviseStream (url : String) (decode : String → Option String) :
    List SessionScript → List SupAction × SupEnd
  | [] => ([], SupEnd.outOfScript)
  | s :: rest =>
    if s.connectOk then
      if (processYields decode (sessionYields s.events)).2 then
        match (inner_messages s.events).2 with
        | SessionEnd.cancelled =>
          (SupAction.connect url :: (processYields decode (sessionYields s.events)).1,
           SupEnd.cancelled)
        | SessionEnd.blocked =>
          (SupAction.connect url :: (processYields decode (sessionYields s.events)).1,
           SupEnd.outOfScript)
        | _ =>
          (SupAction.connect url :: (processYields decode (sessionYields s.events)).1 ++
            (superviseStream url decode rest).1, (superviseStream url decode rest).2)
      else
        (SupAction.connect url :: (processYields decode (sessionYields s.events)).1 ++
          [SupAction.logError, SupAction.sleepSec 30] ++
          (superviseStream url decode rest).1, (superviseStream url decode rest).2)
    else
      (SupAction.connect url :: SupAction.logError :: SupAction.sleepSec 30 ::
        (superviseStream url decode rest).1, (superviseStream url decode rest).2)

/-- Embeds `listen_for_trades`: the supervisor loop over the trade stream
URL, with the trade decoder. -/
def listen_for_trades (conv : String → String) (decode : String → Option String)
    (trading_pairs : List String) (scripts : List SessionScript) :
    List SupAction × SupEnd :=
  superviseStream (tradeStreamUrl conv trading_pairs) decode scripts

/-- Embeds `listen_for_order_book_diffs`: the supervisor loop over the diff
stream URL, with the diff decoder. -/
def listen_for_order_book_diffs (conv : String → String) (decode : String → Option String)
    (trading_pairs : List String) (scripts : List SessionScript) :
    List SupAction × SupEnd :=
  superviseStream (diffStreamUrl conv trading_pairs) decode scripts

/-- Scripted outcome of one `get_snapshot` call inside the snapshot
scheduler: a decoded snapshot, a raised exception (non-200 status or other
failure), or cancellation at this suspension point. -/
inductive FetchOutcome where
  | ok (snap : SnapData)
  | exnFail
  | cancel
deriving DecidableEq

/-- Observable action performed by `listen_for_order_book_snapshots`. -/
inductive SchedAction where
  | fetch (trading_pair : String)
  | enqueueSnap (trading_pair : String) (snap : SnapData)
  | logDebug
  | sleepSec (secs : ℚ)
  | logError
  | sleepToNextHour (delta : ℚ)
deriving DecidableEq

/-- Script for one scheduler cycle: the outcome for each pair (zipped with
the pair list), the scripted `next_hour.timestamp() - time.time()` value,
and whether the hour computation itself raises (a failure escaping the
per-pair handling). -/
structure CycleScript where
  pairOutcomes : List FetchOutcome
  hourDelta : ℚ
  hourCompFails : Bool

/-- The per-pair `for` loop of `listen_for_order_book_snapshots`: for each
pair, fetch; on success enqueue the wrapped snapshot message, log at debug
level, sleep 5 seconds; on a raised exception log at error level and sleep
5 seconds, continuing with the next pair; a cancellation is re-raised
(`true` component), aborting the cycle. -/
def processPairs : List (String × FetchOutcome) → List SchedAction × Bool
  | [] => ([], false)
  | (tp, FetchOutcome.ok s) :: rest =>
    (SchedAction.fetch tp :: SchedAction.enqueueSnap tp s ::
      SchedAction.logDebug :: SchedAction.sleepSec 5 :: (processPairs rest).1,
     (processPairs rest).2)
  | (tp, FetchOutcome.exnFail) :: rest =>
    (SchedAction.fetch tp :: SchedAction.logError :: SchedAction.sleepSec 5 ::
      (processPairs rest).1, (processPairs rest).2)
  | (tp, FetchOutcome.cancel) :: _ =>
    ([SchedAction.fetch tp], true)

/-- One cycle of `listen_for_order_book_snapshots`: process every pair, then
compute the delay to the next wall-clock hour and sleep it; an exception in
that computation escapes to the outer handler, which logs at error level and
sleeps 5 seconds; cancellation propagates. -/
def runCycle (trading_pairs : List String) (c : CycleScript) :
    List SchedAction × Bool :=
  if (processPairs (trading_pairs.zip c.pairOutcomes)).2 then
    ((processPairs (trading_pairs.zip c.pairOutcomes)).1, true)
  else if c.hourCompFails then
    ((processPairs (trading_pairs.zip c.pairOutcomes)).1 ++
      [SchedAction.logError, SchedAction.sleepSec 5], false)
  else
    ((processPairs (trading_pairs.zip c.pairOutcomes)).1 ++
      [SchedAction.sleepToNextHour c.hourDelta], false)

/-- Embeds `listen_for_order_book_snapshots`: forever run cycles;
cancellation propagates (`true` component), everything else retries. -/
def listen_for_order_book_snapshots (trading_pairs : List String) :
    List CycleScript → List SchedAction × Bool
  | [] => ([], false)
  | c :: rest =>
    if (runCycle trading_pairs c).2 then ((runCycle trading_pairs c).1, true)
    else
      ((runCycle trading_pairs c).1 ++
        (listen_for_order_book_snapshots trading_pairs rest).1,
       (listen_for_order_book_snapshots trading_pairs rest).2)

/-- The receive/yield trace prefix produced by `_inner_messages` for a run
of messages that all arrive within the receive timeout. -/
def recvYieldTrace : List String → List StreamAction
  | [] => []
  | raw :: rest =>
    StreamAction.recvWait MESSAGE_TIMEOUT :: StreamAction.yieldMsg raw ::
      recvYieldTrace rest

/-- Extracts a ping from a stream action (for counting liveness probes). -/
def pingOf : StreamAction → Option Unit
  | StreamAction.ping => some ()
  | _ => none

/-- Extracts the fetched pair from a scheduler action. -/
def fetchedPair : SchedAction → Option String
  | SchedAction.fetch tp => some tp
  | _ => none

/-- Extracts the pair of an enqueued snapshot from a scheduler action. -/
def enqueuedPair : SchedAction → Option String
  | SchedAction.enqueueSnap tp _ => some tp
  | _ => none

/-- Extracts the duration of a plain sleep from a scheduler action. -/
def sleepOf : SchedAction → Option ℚ
  | SchedAction.sleepSec secs => some secs
  | _ => none

/-! ## Theorems -/

/-- Helper: `_inner_messages` on a run of delivered messages followed by
further events yields the messages then behaves as on the further events. -/
theorem inner_messages_messages_run (ms : List String) (evs : List RecvEvent) :
    inner_messages (ms.map RecvEvent.message ++ evs) =
      (recvYieldTrace ms ++ (inner_messages evs).1, (inner_messages evs).2) := by
  induction ms with
  | nil => simp [recvYieldTrace]
  | cons raw rest ih => simp [inner_messages, recvYieldTrace, ih]

/-- Helper: the receive/yield prefix contains no ping and no warning. -/
theorem recvYieldTrace_no_ping (ms : List String) :
    (recvYieldTrace ms).filterMap pingOf = []
    ∧ StreamAction.logWarning ∉ recvYieldTrace ms := by
  induction ms with
  | nil => simp [recvYieldTrace]
  | cons raw rest ih => simp [recvYieldTrace, pingOf, ih.1, ih.2]

/-- C2: in the read loop, every receive waits `MESSAGE_TIMEOUT = 30`; on a
receive timeout exactly one ping is sent and its pong awaited with
`PING_TIMEOUT = 10` (a pong in time resumes the loop); if the pong also
times out, a warning is logged, nothing further is yielded, and the
connection is closed; a connection closed mid-read ends the loop silently
(no warning) and closes the connection. -/
theorem c2_heartbeat_protocol (ms : List String) (evs : List RecvEvent) :
    MESSAGE_TIMEOUT = 30 ∧ PING_TIMEOUT = 10
    ∧ inner_messages (ms.map RecvEvent.message ++ [RecvEvent.recvTimeout false]) =
        (recvYieldTrace ms ++ [StreamAction.recvWait 30, StreamAction.ping,
          StreamAction.awaitPong 10, StreamAction.logWarning, StreamAction.close],
         SessionEnd.pingTimeout)
    ∧ (recvYieldTrace ms ++ [StreamAction.recvWait 30, StreamAction.ping,
        StreamAction.awaitPong 10, StreamAction.logWarning, StreamAction.close]).filterMap
        pingOf = [()]
    ∧ inner_messages (RecvEvent.recvTimeout true :: evs) =
        (StreamAction.recvWait 30 :: StreamAction.ping :: StreamAction.awaitPong 10 ::
          (inner_messages evs).1, (inner_messages evs).2)
    ∧ inner_messages (ms.map RecvEvent.message ++ [RecvEvent.connClosed]) =
        (recvYieldTrace ms ++ [StreamAction.recvWait 30, StreamAction.close],
         SessionEnd.closedByPeer)
    ∧ StreamAction.logWarning ∉
        recvYieldTrace ms ++ [StreamAction.recvWait 30, StreamAction.close] := by
  refine ⟨rfl, rfl, ?_, ?_, ?_, ?_, ?_⟩
  · rw [inner_messages_messages_run]
    rfl
  · simp [List.filterMap_append, (recvYieldTrace_no_ping ms).1, pingOf]
  · rfl
  · rw [inner_messages_messages_run]
    rfl
  · simp [(recvYieldTrace_no_ping ms).2]

/-- Helper: the receive/yield prefix yields exactly its messages. -/
theorem recvYieldTrace_yields (ms : List String) :
    (recvYieldTrace ms).filterMap yieldOf = ms := by
  induction ms with
  | nil => rfl
  | cons raw rest ih => simp [recvYieldTrace, yieldOf, ih]

/-- Helper: the yields of a session whose script starts with a run of
delivered messages are those messages followed by the later yields. -/
theorem sessionYields_messages_run (ms : List String) (evs : List RecvEvent) :
    sessionYields (ms.map RecvEvent.message ++ evs) = ms ++ sessionYields evs := by
  unfold sessionYields
  rw [inner_messages_messages_run]
  simp [List.filterMap_append, recvYieldTrace_yields]

/-- Helper: decoding a yield run whose messages all decode, up to one that
does not, enqueues exactly the decodable prefix and then aborts. -/
theorem processYields_fail (decode : String → Option String) (pre : List String)
    (bad : String) (ys : List String)
    (hpre : ∀ r ∈ pre, (decode r).isSome) (hbad : decode bad = none) :
    processYields decode (pre ++ bad :: ys) =
      ((pre.map fun r => SupAction.enqueue ((decode r).getD "")), false) := by
  induction pre with
  | nil => simp [processYields, hbad]
  | cons r rest ih =>
    have hr : (decode r).isSome := hpre r (List.mem_cons_self r rest)
    obtain ⟨m, hm⟩ := Option.isSome_iff_exists.mp hr
    have ih2 := ih fun x hx => hpre x (List.mem_cons_of_mem r hx)
    simp [processYields, hm, ih2]

/-- C1 counterexample: one session delivers a valid message, a malformed
one, then another valid one; the later valid message of the same session is
never enqueued — the decode error aborts the whole Stream Session rather
than only dropping the malformed message. -/
theorem c1_counterexample :
    SupAction.enqueue "good2" ∉
      (listen_for_trades id (fun s => if s = "bad" then none else some s) ["BTC-USDT"]
        [{ connectOk := true,
           events := [RecvEvent.message "good1", RecvEvent.message "bad",
             RecvEvent.message "good2", RecvEvent.connClosed] }]).1 := by
  decide

/-- C1 amended: a malformed message is dropped but aborts its Stream
Session (no later message of that session is processed); the Supervisor
catches the decode error, logs at error level, sleeps 30 seconds, and then
constructs a new Stream Session — the Supervisor loop itself never
terminates on a decode error and subsequent sessions are processed. -/
theorem c1_amended_decode_error (url : String) (decode : String → Option String)
    (pre : List String) (bad : String) (post : List RecvEvent)
    (rest : List SessionScript)
    (hpre : ∀ r ∈ pre, (decode r).isSome) (hbad : decode bad = none) :
    superviseStream url decode
        ({ connectOk := true,
           events := pre.map RecvEvent.message ++ RecvEvent.message bad :: post } :: rest) =
      (SupAction.connect url ::
        (pre.map fun r => SupAction.enqueue ((decode r).getD "")) ++
        [SupAction.logError, SupAction.sleepSec 30] ++
        (superviseStream url decode rest).1,
       (superviseStream url decode rest).2) := by
  have hy : sessionYields (pre.map RecvEvent.message ++ RecvEvent.message bad :: post) =
      pre ++ bad :: sessionYields post := by
    rw [sessionYields_messages_run]
    unfold sessionYields
    simp [inner_messages, yieldOf]
  have hp := processYields_fail decode pre bad (sessionYields post) hpre hbad
  simp only [superviseStream, hy, hp]
  simp

/-- Witness for the amended C1 at a concrete session script. -/
theorem c1_amended_decode_error_witness :
    superviseStream "u" (fun s => if s = "bad" then none else some s)
        ({ connectOk := true,
           events := ["good1"].map RecvEvent.message ++ RecvEvent.message "bad" ::
             [RecvEvent.message "good2", RecvEvent.connClosed] } :: []) =
      (SupAction.connect "u" ::
        (["good1"].map fun r => SupAction.enqueue
          (((fun s => if s = "bad" then none else some s) r).getD "")) ++
        [SupAction.logError, SupAction.sleepSec 30] ++
        (superviseStream "u" (fun s => if s = "bad" then none else some s) []).1,
       (superviseStream "u" (fun s => if s = "bad" then none else some s) []).2) :=
  c1_amended_decode_error "u" (fun s => if s = "bad" then none else some s)
    ["good1"] "bad" [RecvEvent.message "good2", RecvEvent.connClosed] []
    (by decide) (by decide)

/-- C5: supervisor loop policy — a cancellation signal observed in the
session (with every prior message decoded) is re-raised and terminates the
loop with no further actions, never retried; a decode failure is caught at
the iteration: the loop logs at error level, sleeps exactly 30 seconds, and
continues with a new Stream Session; a connect failure likewise logs,
sleeps 30 seconds, and continues. -/
theorem c5_supervisor_error_policy (url : String) (decode : String → Option String)
    (s : SessionScript) (rest : List SessionScript) :
    (s.connectOk = true →
      (processYields decode (sessionYields s.events)).2 = true →
      (inner_messages s.events).2 = SessionEnd.cancelled →
      superviseStream url decode (s :: rest) =
        (SupAction.connect url :: (processYields decode (sessionYields s.events)).1,
         SupEnd.cancelled))
    ∧ (s.connectOk = true →
      (processYields decode (sessionYields s.events)).2 = false →
      superviseStream url decode (s :: rest) =
        (SupAction.connect url :: (processYields decode (sessionYields s.events)).1 ++
          [SupAction.logError, SupAction.sleepSec 30] ++
          (superviseStream url decode rest).1,
         (superviseStream url decode rest).2))
    ∧ (s.connectOk = false →
      superviseStream url decode (s :: rest) =
        (SupAction.connect url :: SupAction.logError :: SupAction.sleepSec 30 ::
          (superviseStream url decode rest).1,
         (superviseStream url decode rest).2)) := by
  refine ⟨?_, ?_, ?_⟩
  · intro h1 h2 h3
    simp [superviseStream, h1, h2, h3]
  · intro h1 h2
    simp [superviseStream, h1, h2]
  · intro h1
    simp [superviseStream, h1]

/-- Witness for C5: the cancellation branch, the decode-failure branch, and
the connect-failure branch, each at a concrete session script. -/
theorem c5_supervisor_error_policy_witness :
    (superviseStream "u" Option.some
        ({ connectOk := true, events := [RecvEvent.message "m", RecvEvent.cancelled] } :: []) =
      (SupAction.connect "u" ::
        (processYields Option.some
          (sessionYields [RecvEvent.message "m", RecvEvent.cancelled])).1,
       SupEnd.cancelled))
    ∧ (superviseStream "u" (fun _ => none)
        ({ connectOk := true, events := [RecvEvent.message "bad", RecvEvent.connClosed] } :: []) =
      (SupAction.connect "u" ::
        (processYields (fun _ => none)
          (sessionYields [RecvEvent.message "bad", RecvEvent.connClosed])).1 ++
        [SupAction.logError, SupAction.sleepSec 30] ++
        (superviseStream "u" (fun _ => none) []).1,
       (superviseStream "u" (fun _ => none) []).2))
    ∧ (superviseStream "u" Option.some ({ connectOk := false, events := [] } :: []) =
      (SupAction.connect "u" :: SupAction.logError :: SupAction.sleepSec 30 ::
        (superviseStream "u" Option.some []).1,
       (superviseStream "u" Option.some []).2)) :=
  ⟨(c5_supervisor_error_policy "u" Option.some
      { connectOk := true, events := [RecvEvent.message "m", RecvEvent.cancelled] } []).1
      rfl (by decide) (by decide),
   (c5_supervisor_error_policy "u" (fun _ => none)
      { connectOk := true, events := [RecvEvent.message "bad", RecvEvent.connClosed] } []).2.1
      rfl (by decide),
   (c5_supervisor_error_policy "u" Option.some
      { connectOk := false, events := [] } []).2.2 rfl⟩

/-- Helper: per-pair processing of a cycle with no cancellation never
cancels, fetches every pair in order, sleeps 5 seconds exactly once per
pair, and enqueues exactly the successfully fetched snapshots in order. -/
theorem processPairs_no_cancel (l : List (String × FetchOutcome))
    (h : ∀ po ∈ l, po.2 ≠ FetchOutcome.cancel) :
    (processPairs l).2 = false
    ∧ (processPairs l).1.filterMap fetchedPair = l.map Prod.fst
    ∧ (processPairs l).1.filterMap sleepOf = l.map (fun _ => (5 : ℚ))
    ∧ (processPairs l).1.filterMap enqueuedPair =
        l.filterMap fun po =>
          match po.2 with
          | FetchOutcome.ok _ => some po.1
          | _ => none := by
  induction l with
  | nil => simp [processPairs]
  | cons po rest ih =>
    obtain ⟨tp, o⟩ := po
    have ho : o ≠ FetchOutcome.cancel := h (tp, o) (List.mem_cons_self _ _)
    obtain ⟨i1, i2, i3, i4⟩ := ih fun x hx => h x (List.mem_cons_of_mem _ hx)
    cases o with
    | ok s => simp [processPairs, fetchedPair, sleepOf, enqueuedPair, i1, i2, i3, i4]
    | exnFail => simp [processPairs, fetchedPair, sleepOf, enqueuedPair, i1, i2, i3, i4]
    | cancel => exact absurd rfl ho

/-- C4: for a cycle without cancellation: the pairs are processed in list
order, each fetched exactly once and followed by exactly one 5 second sleep
(a failed pair is logged and also followed by the 5 second sleep, without
aborting the cycle); snapshots are enqueued exactly for the successful
fetches; only after all pairs is the delay to the next wall-clock hour
appended (and slept); a failure escaping the per-pair handling is logged
and followed by a 5 second sleep, after which the scheduler retries the
next cycle. -/
theorem c4_snapshot_scheduler (trading_pairs : List String)
    (outs : List FetchOutcome) (hd : ℚ) (rest : List CycleScript)
    (h : ∀ o ∈ outs, o ≠ FetchOutcome.cancel) :
    (processPairs (trading_pairs.zip outs)).2 = false
    ∧ (processPairs (trading_pairs.zip outs)).1.filterMap fetchedPair =
        (trading_pairs.zip outs).map Prod.fst
    ∧ (processPairs (trading_pairs.zip outs)).1.filterMap sleepOf =
        (trading_pairs.zip outs).map (fun _ => (5 : ℚ))
    ∧ (processPairs (trading_pairs.zip outs)).1.filterMap enqueuedPair =
        (trading_pairs.zip outs).filterMap (fun po =>
          match po.2 with
          | FetchOutcome.ok _ => some po.1
          | _ => none)
    ∧ runCycle trading_pairs
        { pairOutcomes := outs, hourDelta := hd, hourCompFails := false } =
        ((processPairs (trading_pairs.zip outs)).1 ++
          [SchedAction.sleepToNextHour hd], false)
    ∧ runCycle trading_pairs
        { pairOutcomes := outs, hourDelta := hd, hourCompFails := true } =
        ((processPairs (trading_pairs.zip outs)).1 ++
          [SchedAction.logError, SchedAction.sleepSec 5], false)
    ∧ listen_for_order_book_snapshots trading_pairs
        ({ pairOutcomes := outs, hourDelta := hd, hourCompFails := false } :: rest) =
        ((processPairs (trading_pairs.zip outs)).1 ++ SchedAction.sleepToNextHour hd ::
          (listen_for_order_book_snapshots trading_pairs rest).1,
         (listen_for_order_book_snapshots trading_pairs rest).2) := by
  have hz : ∀ po ∈ trading_pairs.zip outs, po.2 ≠ FetchOutcome.cancel := by
    intro po hpo
    obtain ⟨a, b⟩ := po
    exact h b (List.of_mem_zip hpo).2
  obtain ⟨p1, p2, p3, p4⟩ := processPairs_no_cancel (trading_pairs.zip outs) hz
  refine ⟨p1, p2, p3, p4, ?_, ?_, ?_⟩
  · simp [runCycle, p1]
  · simp [runCycle, p1]
  · simp [listen_for_order_book_snapshots, runCycle, p1]

/-- Witness for C4 at three concrete pairs, the middle fetch failing. -/
theorem c4_snapshot_scheduler_witness :
    (processPairs (["A", "B", "C"].zip
      [FetchOutcome.ok { bids := [], asks := [], seq := 0, trading_pair := none },
       FetchOutcome.exnFail,
       FetchOutcome.ok { bids := [], asks := [], seq := 1, trading_pair := none }])).2 = false
    ∧ (processPairs (["A", "B", "C"].zip
        [FetchOutcome.ok { bids := [], asks := [], seq := 0, trading_pair := none },
         FetchOutcome.exnFail,
         FetchOutcome.ok { bids := [], asks := [], seq := 1, trading_pair := none }])).1.filterMap
        fetchedPair =
        (["A", "B", "C"].zip
          [FetchOutcome.ok { bids := [], asks := [], seq := 0, trading_pair := none },
           FetchOutcome.exnFail,
           FetchOutcome.ok { bids := [], asks := [], seq := 1, trading_pair := none }]).map
          Prod.fst
    ∧ (processPairs (["A", "B", "C"].zip
        [FetchOutcome.ok { bids := [], asks := [], seq := 0, trading_pair := none },
         FetchOutcome.exnFail,
         FetchOutcome.ok { bids := [], asks := [], seq := 1, trading_pair := none }])).1.filterMap
        sleepOf =
        (["A", "B", "C"].zip
          [FetchOutcome.ok { bids := [], asks := [], seq := 0, trading_pair := none },
           FetchOutcome.exnFail,
           FetchOutcome.ok { bids := [], asks := [], seq := 1, trading_pair := none }]).map
          (fun _ => (5 : ℚ))
    ∧ (processPairs (["A", "B", "C"].zip
        [FetchOutcome.ok { bids := [], asks := [], seq := 0, trading_pair := none },
         FetchOutcome.exnFail,
         FetchOutcome.ok { bids := [], asks := [], seq := 1, trading_pair := none }])).1.filterMap
        enqueuedPair =
        (["A", "B", "C"].zip
          [FetchOutcome.ok { bids := [], asks := [], seq := 0, trading_pair := none },
           FetchOutcome.exnFail,
           FetchOutcome.ok { bids := [], asks := [], seq := 1, trading_pair := none }]).filterMap
          (fun po =>
            match po.2 with
            | FetchOutcome.ok _ => some po.1
            | _ => none)
    ∧ runCycle ["A", "B", "C"]
        { pairOutcomes :=
            [FetchOutcome.ok { bids := [], asks := [], seq := 0, trading_pair := none },
             FetchOutcome.exnFail,
             FetchOutcome.ok { bids := [], asks := [], seq := 1, trading_pair := none }],
          hourDelta := 100, hourCompFails := false } =
        ((processPairs (["A", "B", "C"].zip
          [FetchOutcome.ok { bids := [], asks := [], seq := 0, trading_pair := none },
           FetchOutcome.exnFail,
           FetchOutcome.ok { bids := [], asks := [], seq := 1, trading_pair := none }])).1 ++
          [SchedAction.sleepToNextHour 100], false)
    ∧ runCycle ["A", "B", "C"]
        { pairOutcomes :=
            [FetchOutcome.ok { bids := [], asks := [], seq := 0, trading_pair := none },
             FetchOutcome.exnFail,
             FetchOutcome.ok { bids := [], asks := [], seq := 1, trading_pair := none }],
          hourDelta := 100, hourCompFails := true } =
        ((processPairs (["A", "B", "C"].zip
          [FetchOutcome.ok { bids := [], asks := [], seq := 0, trading_pair := none },
           FetchOutcome.exnFail,
           FetchOutcome.ok { bids := [], asks := [], seq := 1, trading_pair := none }])).1 ++
          [SchedAction.logError, SchedAction.sleepSec 5], false)
    ∧ listen_for_order_book_snapshots ["A", "B", "C"]
        ({ pairOutcomes :=
             [FetchOutcome.ok { bids := [], asks := [], seq := 0, trading_pair := none },
              FetchOutcome.exnFail,
              FetchOutcome.ok { bids := [], asks := [], seq := 1, trading_pair := none }],
           hourDelta := 100, hourCompFails := false } :: []) =
        ((processPairs (["A", "B", "C"].zip
          [FetchOutcome.ok { bids := [], asks := [], seq := 0, trading_pair := none },
           FetchOutcome.exnFail,
           FetchOutcome.ok { bids := [], asks := [], seq := 1, trading_pair := none }])).1 ++
          SchedAction.sleepToNextHour 100 ::
          (listen_for_order_book_snapshots ["A", "B", "C"] []).1,
         (listen_for_order_book_snapshots ["A", "B", "C"] []).2) :=
  c4_snapshot_scheduler ["A", "B", "C"]
    [FetchOutcome.ok { bids := [], asks := [], seq := 0, trading_pair := none },
     FetchOutcome.exnFail,
     FetchOutcome.ok { bids := [], asks := [], seq := 1, trading_pair := none }]
    100 [] (by decide)

/-- C9: `get_mid_price` computes the exact average of the `buy` and `sell`
fields of the ticker (a missing field counting as zero) and returns `none`
exactly when that average is zero, in particular when both fields are
absent; any returned number is that average. -/
theorem c9_get_mid_price_avg (record : TickerRecord) :
    (get_mid_price record = none ↔ (record.buy.getD 0 + record.sell.getD 0) / 2 = 0)
    ∧ (∀ q : ℚ, get_mid_price record = some q →
        q = (record.buy.getD 0 + record.sell.getD 0) / 2)
    ∧ get_mid_price { buy := none, sell := none } = none := by
  refine ⟨?_, ?_, by norm_num [get_mid_price]⟩
  · by_cases h : (record.buy.getD 0 + record.sell.getD 0) / 2 = 0 <;>
      simp [get_mid_price, h]
  · intro q hq
    by_cases h : (record.buy.getD 0 + record.sell.getD 0) / 2 = 0 <;>
      simp [get_mid_price, h] at hq
    exact hq.symm

/-- Witness for C9 at a concrete ticker. -/
theorem c9_get_mid_price_avg_witness :
    (5 : ℚ) = ((some (4 : ℚ)).getD 0 + (some (6 : ℚ)).getD 0) / 2 :=
  (c9_get_mid_price_avg { buy := some 4, sell := some 6 }).2.1 5
    (by norm_num [get_mid_price])

/-- C10: `fetch_trading_pairs` never raises (it is total into a plain list):
it returns the empty list when the request raises, when the status is not
200, and when the body lacks a well-formed symbol list; on a 200 response it
returns, in the venue listing order, exactly the translations of the symbols
the translator maps to a value. -/
theorem c10_fetch_trading_pairs_total (conv : String → Option String)
    (status : ℕ) (symbols : Option (List String)) (raws : List String)
    (h : status ≠ 200) :
    fetch_trading_pairs conv ExchangeInfoOutcome.raised = []
    ∧ fetch_trading_pairs conv (ExchangeInfoOutcome.response status symbols) = []
    ∧ fetch_trading_pairs conv (ExchangeInfoOutcome.response 200 none) = []
    ∧ fetch_trading_pairs conv (ExchangeInfoOutcome.response 200 (some raws)) =
        raws.filterMap conv := by
  refine ⟨rfl, ?_, rfl, rfl⟩
  simp [fetch_trading_pairs, h]

/-- Witness for C10 at a concrete translator, a 503 status, and a symbol
list in which one symbol has no translation. -/
theorem c10_fetch_trading_pairs_total_witness :
    fetch_trading_pairs (fun s => if s = "skip" then none else some s)
        ExchangeInfoOutcome.raised = []
    ∧ fetch_trading_pairs (fun s => if s = "skip" then none else some s)
        (ExchangeInfoOutcome.response 503 (some ["a", "skip", "b"])) = []
    ∧ fetch_trading_pairs (fun s => if s = "skip" then none else some s)
        (ExchangeInfoOutcome.response 200 none) = []
    ∧ fetch_trading_pairs (fun s => if s = "skip" then none else some s)
        (ExchangeInfoOutcome.response 200 (some ["a", "skip", "b"])) =
        ["a", "skip", "b"].filterMap (fun s => if s = "skip" then none else some s) :=
  c10_fetch_trading_pairs_total (fun s => if s = "skip" then none else some s)
    503 (some ["a", "skip", "b"]) ["a", "skip", "b"] (by decide)

/-- C3: on a non-200 depth-snapshot response, `get_snapshot` raises an error
whose message contains the requested pair and the numeric status code, and
`get_new_order_book` propagates exactly that error, unretried. -/
theorem c3_snapshot_error_propagates (trading_pair : String)
    (resp : HttpSnapshotResponse) (ts : ℚ) (h : resp.status ≠ 200) :
    ∃ pre mid post : String,
      get_snapshot trading_pair 1000 resp =
        Except.error (pre ++ trading_pair ++ mid ++ toString resp.status ++ post)
      ∧ get_new_order_book trading_pair resp ts =
        Except.error (pre ++ trading_pair ++ mid ++ toString resp.status ++ post) := by
  refine ⟨"Error fetching Bitzlato market snapshot for ", ". HTTP status is ", ".",
    ?_, ?_⟩
  · simp [get_snapshot, h]
  · simp [get_new_order_book, get_snapshot, h, Bind.bind, Except.bind]

/-- Witness for C3 at pair `X-Y` and status 503. -/
theorem c3_snapshot_error_propagates_witness :
    ∃ pre mid post : String,
      get_snapshot "X-Y" 1000 { status := 503, body := Except.error "e" } =
        Except.error (pre ++ "X-Y" ++ mid ++
          toString (HttpSnapshotResponse.status { status := 503, body := Except.error "e" }) ++ post)
      ∧ get_new_order_book "X-Y" { status := 503, body := Except.error "e" } 0 =
        Except.error (pre ++ "X-Y" ++ mid ++
          toString (HttpSnapshotResponse.status { status := 503, body := Except.error "e" }) ++ post) :=
  c3_snapshot_error_propagates "X-Y" { status := 503, body := Except.error "e" } 0
    (by decide)

/-- C6: on a valid (200, well-formed) snapshot response, the bootstrap
builds a snapshot message whose trading-pair field is exactly the requested
pair (injected via the metadata argument) and returns a freshly created
order book with that message bids, asks, and update id applied. -/
theorem c6_bootstrap_pair_injected (trading_pair : String) (data : SnapData)
    (ts : ℚ) (resp : HttpSnapshotResponse)
    (hs : resp.status = 200) (hb : resp.body = Except.ok data) :
    (snapshot_message_from_exchange data ts trading_pair).trading_pair = trading_pair
    ∧ get_new_order_book trading_pair resp ts =
      Except.ok (OrderBook.new.apply_snapshot
        (snapshot_message_from_exchange data ts trading_pair).bids
        (snapshot_message_from_exchange data ts trading_pair).asks
        (snapshot_message_from_exchange data ts trading_pair).update_id) := by
  have h1 : get_snapshot trading_pair 1000 resp = Except.ok data := by
    simp [get_snapshot, hs, hb]
  refine ⟨rfl, ?_⟩
  unfold get_new_order_book
  rw [h1]
  rfl

/-- Witness for C6 at a concrete valid response. -/
theorem c6_bootstrap_pair_injected_witness :
    (snapshot_message_from_exchange
        { bids := [(1, 2)], asks := [(3, 4)], seq := 7, trading_pair := none }
        9 "BTC-USDT").trading_pair = "BTC-USDT"
    ∧ get_new_order_book "BTC-USDT"
        { status := 200,
          body := Except.ok { bids := [(1, 2)], asks := [(3, 4)], seq := 7, trading_pair := none } }
        9 =
      Except.ok (OrderBook.new.apply_snapshot
        (snapshot_message_from_exchange
          { bids := [(1, 2)], asks := [(3, 4)], seq := 7, trading_pair := none }
          9 "BTC-USDT").bids
        (snapshot_message_from_exchange
          { bids := [(1, 2)], asks := [(3, 4)], seq := 7, trading_pair := none }
          9 "BTC-USDT").asks
        (snapshot_message_from_exchange
          { bids := [(1, 2)], asks := [(3, 4)], seq := 7, trading_pair := none }
          9 "BTC-USDT").update_id) :=
  c6_bootstrap_pair_injected "BTC-USDT"
    { bids := [(1, 2)], asks := [(3, 4)], seq := 7, trading_pair := none } 9
    { status := 200,
      body := Except.ok { bids := [(1, 2)], asks := [(3, 4)], seq := 7, trading_pair := none } }
    rfl rfl

/-- C7 counterexample: on a 200 response `get_snapshot` returns the venue
body unchanged — the returned snapshot carries no trading-pair identity
(`trading_pair = none`, not the requested pair), so the fetch operation
itself does not annotate its result with the requested pair. -/
theorem c7_counterexample :
    get_snapshot "BTC-USDT" 1000
        { status := 200,
          body := Except.ok { bids := [(1, 2)], asks := [(3, 4)], seq := 7, trading_pair := none } } =
      Except.ok { bids := [(1, 2)], asks := [(3, 4)], seq := 7, trading_pair := none }
    ∧ (none : Option String) ≠ some "BTC-USDT" :=
  ⟨rfl, by decide⟩

/-- C7 amended: on a 200 response `get_snapshot` returns the decoded venue
body unchanged, so its value does not depend on the requested pair; the pair
is injected only downstream, by the callers, through the metadata argument
of the snapshot-message constructor. -/
theorem c7_amended_snapshot_unannotated (trading_pair other : String)
    (limit : ℕ) (resp : HttpSnapshotResponse) (h : resp.status = 200) :
    get_snapshot trading_pair limit resp = resp.body
    ∧ get_snapshot trading_pair limit resp = get_snapshot other limit resp := by
  constructor <;> simp [get_snapshot, h]

/-- Witness for the amended C7 at two concrete pairs. -/
theorem c7_amended_snapshot_unannotated_witness :
    get_snapshot "BTC-USDT" 1000 { status := 200, body := Except.error "e" } =
      HttpSnapshotResponse.body { status := 200, body := Except.error "e" }
    ∧ get_snapshot "BTC-USDT" 1000 { status := 200, body := Except.error "e" } =
      get_snapshot "ETH-USDT" 1000 { status := 200, body := Except.error "e" } :=
  c7_amended_snapshot_unannotated "BTC-USDT" "ETH-USDT" 1000
    { status := 200, body := Except.error "e" } rfl

/-- C8: concrete evaluation of the subscription URL builders at two pairs
(identity venue formatting). The trade stream joins `pair.trade` topics with
the token `/?=`, while the diff stream joins `pair.ob-inc ` topics — with a
trailing space in the suffix — with the different token `/?stream=`: the two
stream kinds do not share one delimiter and the diff suffix is not exactly
`.ob-inc`. -/
theorem c8_url_delimiters_observed :
    tradeWsPath id ["BTC-USDT", "ETH-USDT"] = "btc-usdt.trade/?=eth-usdt.trade"
    ∧ diffWsPath id ["BTC-USDT", "ETH-USDT"] = "btc-usdt.ob-inc /?stream=eth-usdt.ob-inc "
    ∧ tradeStreamUrl id ["BTC-USDT", "ETH-USDT"] =
        "wss://www.bitzlato.dev/api/v2/ranger/public/btc-usdt.trade/?=eth-usdt.trade"
    ∧ diffStreamUrl id ["BTC-USDT", "ETH-USDT"] =
        "wss://www.bitzlato.dev/api/v2/ranger/public/btc-usdt.ob-inc /?stream=eth-usdt.ob-inc " :=
  ⟨rfl, rfl, rfl, rfl⟩

end Bitzlato
